import Mathlib

/-!
Verification of the Square refund batch processor
(`src/square_refund_processor.py`).

The program reads a delimited file of `payment_id, amount` rows, validates
each row, issues one refund call per validated row against an external
payments API, accumulates success/failure counters, and exits 0 exactly
when no processed row failed.

Shallow embedding conventions:
* Monetary amounts are modelled as exact rationals (`ℚ`).  The Python code
  stores them as `float`; every claim below is about the arithmetic the
  code performs (`float(s)`, `int(amount * 100)`), which we carry out
  exactly on `ℚ`.
* The CSV layer is modelled after Python's `csv.DictReader`: a file is a
  header (list of column names) plus rows, where each of the two consumed
  cells is an `Option String` — `none` models a short row, for which
  `DictReader` maps the missing key to `None` and the subsequent
  `.strip()` raises `AttributeError`.
* The external Square client is an oracle `Nat → Except PyExn ApiResult`
  giving, for each 0-based row position, either a returned result object
  or a raised exception; `try/except` blocks become matches on `Except`.
* `uuid.uuid4()` is modelled as a fresh-token counter threaded through the
  run: each call consumes one `Nat` token and distinct draws are distinct.
* Logging is an external sink and is not modelled.
* Two fidelity layers model the numeric pipeline.  The `ℚ`-valued layer
  (`parseDecimal`, `loadRows`, `create_refund`) idealizes `float` values
  by exact rationals; it is adequate for the control-flow properties
  (counters, ordering, error handling, exit codes), which do not depend
  on which rows validate or on rounding.  The `PyFloat` layer
  (`parsePyFloat`, `loadRowsFP`, `floatCents`) models IEEE-754 binary64
  exactly — NaN and the infinities, correctly rounded conversion from
  decimal strings, correctly rounded multiplication, and Python's
  comparison and `int()` semantics — and settles the claims that are
  sensitive to float behavior (which strings `float(s)` accepts, and
  what `int(amount * 100)` actually sends).
-/

/-- A data row as seen through `csv.DictReader`: the two consumed cells.
`none` models a row with fewer fields than the header (DictReader's
`restval=None`).  Extra columns are ignored by the code and not modelled. -/
structure CSVRow where
  payment_id : Option String
  amount : Option String
deriving DecidableEq, Repr

/-- A structurally readable delimited file: header names plus data rows. -/
structure CSVFile where
  header : List String
  rows : List CSVRow
deriving DecidableEq, Repr

/-- A validated refund entry appended by `read_csv_file` (the dict
`{payment_id, amount, row_number}` at lines 145-149). -/
structure RefundRequest where
  payment_id : String
  amount : ℚ
  row_number : Nat
deriving DecidableEq, Repr

/-- How a load aborts: `fileNotFound` models `FileNotFoundError`;
`missingColumns found missing` models the `ValueError` raised at line 122
(the log also reports the columns found and the expected pair);
`rowError n msg` models an exception raised while handling row `n`
(e.g. `AttributeError` from `None.strip()`), re-raised at line 156. -/
inductive LoadError where
  | fileNotFound
  | missingColumns (found : List String) (missing : List String)
  | rowError (row_number : Nat) (msg : String)
deriving DecidableEq, Repr

/-- A structured error entry of a failure result (`e.get('code')`,
`e.get('detail')`). -/
structure SqError where
  code : Option String
  detail : Option String
deriving DecidableEq, Repr

/-- The result object returned (without raising) by
`refunds_api.refund_payment`.  `success` carries the fields the code reads
out of `result.body['refund']` via `.get` (hence `Option`); `failure`
carries `result.errors` when the attribute exists (`hasattr`), else
`none`. -/
inductive ApiResult where
  | success (refund_id status currency created_at : Option String)
  | failure (errors : Option (List SqError))
deriving DecidableEq, Repr

/-- An exception raised by the call path: `APIException` or any other
exception, matching the two `except` clauses of `create_refund`. -/
inductive PyExn where
  | api (msg : String)
  | other (msg : String)
deriving DecidableEq, Repr

/-- The result dict returned by `create_refund` alongside its boolean:
one constructor per `return` statement (lines 192, 202, 209, 216). -/
inductive RefundResult where
  | ok (refund_id status : Option String) (amount : ℚ)
      (currency created_at : Option String) (payment_id : String)
  | errs (errors : List (Option String × Option String))
      (payment_id : String) (amount : ℚ)
  | exn (error message : String) (payment_id : String) (amount : ℚ)
deriving DecidableEq, Repr

/-- The `payment_id` entry of a `create_refund` result dict. -/
def RefundResult.paymentId : RefundResult → String
  | .ok _ _ _ _ _ p => p
  | .errs _ p _ => p
  | .exn _ _ p _ => p

/-- The `amount` entry of a `create_refund` result dict. -/
def RefundResult.amountVal : RefundResult → ℚ
  | .ok _ _ a _ _ _ => a
  | .errs _ _ a => a
  | .exn _ _ _ a => a

/-- The request body handed to `refunds_api.refund_payment`
(lines 177-185).  The idempotency key is the fresh token drawn for this
call. -/
structure RefundCall where
  idempotency_key : Nat
  amount_cents : Int
  currency : String
  payment_id : String
  reason : String
deriving DecidableEq, Repr

/-- Python `int()` on an exact value: truncation toward zero. -/
def truncToInt (q : ℚ) : Int :=
  if 0 ≤ q then ⌊q⌋ else ⌈q⌉

/-- The fixed `reason` string of every refund request body. -/
def refundReason : String := "Refund processed via batch script"

/-- Whitespace as stripped by Python's `str.strip()` (the ASCII portion;
the claims only involve plain spaces). -/
def isPySpace (c : Char) : Bool :=
  c = ' ' || c = '\t' || c = '\n' || c = '\x0d' || c = '\x0b' || c = '\x0c'

/-- Python `str.strip()`: drop leading and trailing whitespace. -/
def pyStrip (s : String) : String :=
  ⟨((s.toList.dropWhile isPySpace).reverse.dropWhile isPySpace).reverse⟩

/-- Decimal digit test. -/
def isDigit (c : Char) : Bool :=
  '0' ≤ c && c ≤ '9'

/-- Value of a digit string (most significant first). -/
def digitsVal (l : List Char) : Nat :=
  l.foldl (fun acc c => 10 * acc + (c.toNat - '0'.toNat)) 0

/-- Python `float(s)` restricted to plain decimal literals, as exact
rationals: optional sign, then digit strings around at most one point,
with at least one digit (`"5."`, `".5"`, `"-5"`, `"10.50"` parse;
`""`, `"."`, `"abc"`, `"1.2.3"` do not).  This is the idealized layer:
the exponent, `inf`/`nan` and digit-underscore forms accepted by CPython,
and binary64 rounding, are modelled by `parsePyFloat` below. -/
def parseDecimal (s : String) : Option ℚ :=
  let l := s.toList
  let core := fun (l : List Char) =>
    match l.splitOn '.' with
    | [ds] =>
        if ds ≠ [] && ds.all isDigit then some ((digitsVal ds : ℚ)) else none
    | [as, bs] =>
        if (as ++ bs) ≠ [] && (as ++ bs).all isDigit then
          some (mkRat (digitsVal (as ++ bs)) (10 ^ bs.length))
        else none
    | _ => none
  match l with
  | '-' :: rest => (core rest).map (fun q => -q)
  | '+' :: rest => core rest
  | _ => core l

/-- The message of the `AttributeError` raised when a short row makes
`row['payment_id']` or `row['amount']` come back as `None` and the code
calls `.strip()` on it. -/
def noneStripMsg : String := "AttributeError: NoneType has no attribute strip"

/-- The required header columns (line 113). -/
def requiredColumns : List String := ["payment_id", "amount"]

/-- The required columns absent from a header (`required_columns - set(fieldnames)`). -/
def missingColumnsOf (header : List String) : List String :=
  requiredColumns.filter (fun c => c ∉ header)

/-- The per-row loop of `read_csv_file` (lines 126-149), over rows whose
numbering starts at `n` (2 for the first data row).  Reading a `none`
cell models `row[...]` returning `None` and `.strip()` raising
`AttributeError`, which the outer `except Exception` re-raises: the load
aborts.  Otherwise a row is skipped when the trimmed `payment_id` is
empty, the amount fails to parse, or the parsed amount is ≤ 0; accepted
rows are appended in order. -/
def loadRows : List CSVRow → Nat → Except LoadError (List RefundRequest)
  | [], _ => .ok []
  | r :: rs, n =>
    match r.payment_id with
    | none => .error (.rowError n noneStripMsg)
    | some pidRaw =>
      match r.amount with
      | none => .error (.rowError n noneStripMsg)
      | some amtRaw =>
        let payment_id := pyStrip pidRaw
        let amount_str := pyStrip amtRaw
        if payment_id = "" then
          loadRows rs (n + 1)
        else
          match parseDecimal amount_str with
          | none => loadRows rs (n + 1)
          | some amount =>
            if amount ≤ 0 then
              loadRows rs (n + 1)
            else
              match loadRows rs (n + 1) with
              | .error e => .error e
              | .ok rest => .ok (⟨payment_id, amount, n⟩ :: rest)

/-- `read_csv_file` (lines 90-159): `none` input models the path not
existing (`FileNotFoundError`); otherwise the header must contain both
required columns (line 114) or a `ValueError` carrying the missing set is
raised, the log having reported the columns found and the columns
expected; then the rows are validated in order starting at row number 2. -/
def read_csv_file (inp : Option CSVFile) : Except LoadError (List RefundRequest) :=
  match inp with
  | none => .error .fileNotFound
  | some f =>
    if "payment_id" ∈ f.header ∧ "amount" ∈ f.header then
      loadRows f.rows 2
    else
      .error (.missingColumns f.header (missingColumnsOf f.header))

/-- Whether a call-path behavior takes the `result.is_success()` branch. -/
def callIsSuccess : Except PyExn ApiResult → Bool
  | .ok (.success _ _ _ _) => true
  | _ => false

/-- `create_refund` (lines 161-221).  `tok` is the fresh idempotency
token drawn by `uuid.uuid4()`; `api` is the collaborator's behavior for
this call (a returned result object, or a raised exception).  Returns the
`(success, result_dict)` pair together with the request body that was
handed to `refund_payment`.  The two `except` clauses convert raised
exceptions into failure results with categories `'API Exception'` and
`'Unexpected Error'`. -/
def create_refund (payment_id : String) (amount : ℚ) (tok : Nat)
    (api : Except PyExn ApiResult) : (Bool × RefundResult) × RefundCall :=
  let amount_cents : Int := truncToInt (amount * 100)
  let call : RefundCall := ⟨tok, amount_cents, "USD", payment_id, refundReason⟩
  match api with
  | .ok (.success refund_id status currency created_at) =>
      ((true, .ok refund_id status amount currency created_at payment_id), call)
  | .ok (.failure errors) =>
      ((false, .errs ((errors.getD []).map (fun e => (e.code, e.detail)))
          payment_id amount), call)
  | .error (.api m) =>
      ((false, .exn "API Exception" m payment_id amount), call)
  | .error (.other m) =>
      ((false, .exn "Unexpected Error" m payment_id amount), call)

/-- The per-refund loop of `process_refunds` (lines 246-280): processes
the requests in order; row at position `i` (token counter `t + i`) is
attempted with behavior `api (t + i)`... here expressed by passing the
current counter `t`.  Returns the `(successful, failed)` counters and the
list of request bodies sent to the collaborator, in order. -/
def runRefunds : List RefundRequest → (Nat → Except PyExn ApiResult) → Nat →
    (Nat × Nat) × List RefundCall
  | [], _, _ => ((0, 0), [])
  | r :: rs, api, t =>
    let step := create_refund r.payment_id r.amount t (api t)
    let rest := runRefunds rs api (t + 1)
    ((if step.1.1 then rest.1.1 + 1 else rest.1.1,
      if step.1.1 then rest.1.2 else rest.1.2 + 1),
     step.2 :: rest.2)

/-- The summary dict returned by `process_refunds`. -/
structure RunSummary where
  total : Nat
  successful : Nat
  failed : Nat
deriving DecidableEq, Repr

/-- `process_refunds` (lines 223-294): loads the file (propagating load
errors), returns `{total: 0, successful: 0, failed: 0}` without any call
when no valid rows were found, and otherwise runs every row and computes
the logged success rate `successful / total * 100` — only in this branch,
so the division is never reached with `total = 0`.  The second component
is the list of collaborator invocations made (empty on the error and
zero-row paths). -/
def process_refunds (inp : Option CSVFile) (api : Nat → Except PyExn ApiResult) :
    Except LoadError (RunSummary × Option ℚ) × List RefundCall :=
  match read_csv_file inp with
  | .error e => (.error e, [])
  | .ok refund_data =>
    if refund_data.isEmpty then
      (.ok (⟨0, 0, 0⟩, none), [])
    else
      let r := runRefunds refund_data api 0
      (.ok (⟨refund_data.length, r.1.1, r.1.2⟩,
        some ((r.1.1 : ℚ) / (refund_data.length : ℚ) * 100)), r.2)

/-- The exit-code logic of `main` (lines 335-358): `interrupted` models a
`KeyboardInterrupt` raised during the run (exit 1); any exception
escaping `process_refunds` exits 1; otherwise exit 1 iff some refund
failed, else exit 0. -/
def main_exit (interrupted : Bool) (inp : Option CSVFile)
    (api : Nat → Except PyExn ApiResult) : Nat :=
  if interrupted then 1
  else
    match (process_refunds inp api).1 with
    | .error _ => 1
    | .ok (s, _) => if s.failed > 0 then 1 else 0

/-! The bit-faithful model of the Python float pipeline. -/

/-- A Python float: NaN, the two infinities, or a finite binary64 value
carried as its exact rational value (values produced by `roundDouble`
are representable by construction). -/
inductive PyFloat where
  | nan
  | inf
  | ninf
  | fin (q : ℚ)
deriving DecidableEq, Repr

/-- Python unary minus on a float. -/
def pyNeg : PyFloat → PyFloat
  | .nan => .nan
  | .inf => .ninf
  | .ninf => .inf
  | .fin q => .fin (-q)

/-- The Python comparison `amount <= 0` (line 138): False for NaN (every
comparison involving NaN is False) and for +inf. -/
def pyLeZero : PyFloat → Bool
  | .nan => false
  | .inf => false
  | .ninf => true
  | .fin q => decide (q ≤ 0)

/-- The Python comparison `amount > 0`: False for NaN. -/
def pyGtZero : PyFloat → Bool
  | .nan => false
  | .inf => true
  | .ninf => false
  | .fin q => decide (0 < q)

/-- Bit length, fuel-based so the kernel can evaluate it:
`bitLenAux fuel n` is `⌊log2 n⌋ + 1` for `1 ≤ n ≤ 2 ^ fuel`, `0` for
`n = 0`. -/
def bitLenAux : Nat → Nat → Nat
  | 0, _ => 0
  | fuel + 1, n => if n = 0 then 0 else bitLenAux fuel (n / 2) + 1

/-- Bit length of a natural number (`n` itself is ample fuel). -/
def bitLen (n : Nat) : Nat := bitLenAux n n

/-- Whether `2 ^ e ≤ q`, for positive `q`, by cross-multiplication. -/
def pow2LE (e : Int) (q : ℚ) : Bool :=
  if 0 ≤ e then decide ((q.den : Int) * ((2 ^ e.toNat : Nat) : Int) ≤ q.num)
  else decide ((q.den : Int) ≤ q.num * ((2 ^ (-e).toNat : Nat) : Int))

/-- `⌊log2 q⌋` for positive `q`: the bit lengths of numerator and
denominator bracket it within one, and one comparison settles it. -/
def floorLog2 (q : ℚ) : Int :=
  let e0 : Int := (bitLen q.num.toNat : Int) - (bitLen q.den : Int)
  if pow2LE e0 q then e0 else e0 - 1

/-- `2 ^ 1024`, the smallest magnitude that overflows binary64, as a
digit literal (`ovfBound_eq` checks it) so concrete rounding proofs
reduce without evaluating the power. -/
def ovfBound : Nat := 179769313486231590772930519078902473361797697894230657273430081157732675805500963132708477322407536021120113879871393357658789768814416622492847430639474124377767893424865485276302219601246094119453082952085005768838150682342462881473913110540827237163350510684586298239947245938479716304835356329624224137216

/-- Nearest integer to the nonnegative fraction `n / d` (`d > 0`), ties
to even. -/
def roundScaled (n d : Nat) : Nat :=
  let w := n / d
  if 2 * (n % d) < d then w
  else if d < 2 * (n % d) then w + 1
  else if w % 2 = 0 then w else w + 1

/-- Positive case of binary64 rounding: significand granularity
`2 ^ (E - 52)` for leading-bit exponent `E`, clamped at the subnormal
granularity `2 ^ (-1074)`; the significand is the nearest multiple, ties
to even (`q / 2 ^ e` as the scaled fraction, in plain naturals); rounded
magnitudes of `2 ^ 1024` or more overflow to infinity. -/
def roundDoubleAux (q : ℚ) : PyFloat :=
  let el : Int := floorLog2 q - 52
  let e : Int := if el < -1074 then -1074 else el
  let n := q.num.toNat
  let d := q.den
  let m :=
    if 0 ≤ e then roundScaled n (d * 2 ^ e.toNat)
    else roundScaled (n * 2 ^ (-e).toNat) d
  let v : ℚ :=
    if 0 ≤ e then ((m * 2 ^ e.toNat : Nat) : ℚ)
    else mkRat (m : Int) (2 ^ (-e).toNat)
  if ((ovfBound : Nat) : ℚ) ≤ v then .inf else .fin v

/-- Round an exact rational to IEEE-754 binary64 (round to nearest,
ties to even), as CPython's correctly rounded string conversion and
arithmetic do. -/
def roundDouble (q : ℚ) : PyFloat :=
  if q = 0 then .fin 0
  else if q < 0 then pyNeg (roundDoubleAux (-q)) else roundDoubleAux q

/-- ASCII lowercasing, for the case-insensitive `inf`/`nan` forms. -/
def toLowerChar (c : Char) : Char :=
  if 'A' ≤ c && c ≤ 'Z' then Char.ofNat (c.toNat + 32) else c

/-- Drop the PEP-515 digit-group underscores. -/
def stripUnderscores (l : List Char) : List Char :=
  l.filter (fun c => c != '_')

/-- No two adjacent underscores. -/
def noDoubleUnderscore : List Char → Bool
  | [] => true
  | [_] => true
  | a :: b :: rest => !(a == '_' && b == '_') && noDoubleUnderscore (b :: rest)

/-- A possibly empty digit group with single underscores strictly
between digits (PEP 515): no leading, trailing or doubled underscore. -/
def validGroup (l : List Char) : Bool :=
  l.all (fun c => isDigit c || c == '_') &&
  (match l with
   | [] => true
   | c :: _ => c != '_') &&
  (match l.reverse with
   | [] => true
   | c :: _ => c != '_') &&
  noDoubleUnderscore l

/-- Integer and fractional digit part of a float literal: the combined
digits' value and the number of fractional digits, or `none` if
malformed (at least one digit required, at most one point). -/
def mantissaParse (l : List Char) : Option (Nat × Nat) :=
  match l.splitOn '.' with
  | [i] =>
      if validGroup i && !(stripUnderscores i).isEmpty then
        some (digitsVal (stripUnderscores i), 0)
      else none
  | [i, f] =>
      if validGroup i && validGroup f &&
          !((stripUnderscores i) ++ (stripUnderscores f)).isEmpty then
        some (digitsVal ((stripUnderscores i) ++ (stripUnderscores f)),
          (stripUnderscores f).length)
      else none
  | _ => none

/-- Unsigned exponent digits. -/
def expDigits (l : List Char) : Option Int :=
  if validGroup l && !(stripUnderscores l).isEmpty then
    some ((digitsVal (stripUnderscores l) : Int))
  else none

/-- Optionally signed exponent. -/
def expParse (l : List Char) : Option Int :=
  match l with
  | '+' :: rest => expDigits rest
  | '-' :: rest => (expDigits rest).map (fun n => -n)
  | _ => expDigits l

/-- Exact value of `digits × 10 ^ (exponent - fractional places)`. -/
def decValue (m : Nat) (fracLen : Nat) (ex : Int) : ℚ :=
  let shift := ex - (fracLen : Int)
  if 0 ≤ shift then ((m * 10 ^ shift.toNat : Nat) : ℚ)
  else mkRat (m : Int) (10 ^ (-shift).toNat)

/-- Python `float(s)`: strip whitespace, optional sign, then the
case-insensitive special forms `inf`/`infinity`/`nan` or a decimal
literal with optional fraction, optional exponent and PEP-515
underscores; the decimal value is correctly rounded to binary64.
Returns `none` when `float` raises `ValueError`. -/
def parsePyFloat (s : String) : Option PyFloat :=
  let l := (pyStrip s).toList.map toLowerChar
  let sb : Bool × List Char :=
    match l with
    | '-' :: rest => (true, rest)
    | '+' :: rest => (false, rest)
    | _ => (false, l)
  let neg := sb.1
  let body := sb.2
  let applySign := fun (v : PyFloat) => if neg then pyNeg v else v
  if body = ['i', 'n', 'f'] || body = ['i', 'n', 'f', 'i', 'n', 'i', 't', 'y'] then
    some (applySign .inf)
  else if body = ['n', 'a', 'n'] then
    some .nan
  else
    match body.splitOn 'e' with
    | [mant] =>
        (mantissaParse mant).map
          (fun p => applySign (roundDouble (decValue p.1 p.2 0)))
    | [mant, ex] =>
        match mantissaParse mant, expParse ex with
        | some p, some exv => some (applySign (roundDouble (decValue p.1 p.2 exv)))
        | _, _ => none
    | _ => none

/-- Double multiplication by the exactly representable 100 (line 174):
IEEE multiplication is the correctly rounded exact product — here
`mkRat (q.num * 100) q.den`, the exact rational `q * 100`. -/
def pyMul100 : PyFloat → PyFloat
  | .nan => .nan
  | .inf => .inf
  | .ninf => .ninf
  | .fin q => roundDouble (mkRat (q.num * 100) q.den)

/-- Python `int()` on a float: truncation toward zero for finite values;
NaN and the infinities raise (`none`). -/
def pyInt : PyFloat → Option Int
  | .fin q => some (truncToInt q)
  | _ => none

/-- `int(amount * 100)` (line 174) computed in double arithmetic. -/
def floatCents (a : PyFloat) : Option Int := pyInt (pyMul100 a)

/-- A validated refund entry of the bit-faithful loader: the stored
amount is the double the program keeps. -/
structure RefundRequestFP where
  payment_id : String
  amount : PyFloat
  row_number : Nat
deriving DecidableEq, Repr

/-- The per-row loop of `read_csv_file` (lines 126-149) at float
fidelity: identical control flow to `loadRows`, with `float(s)` modelled
by `parsePyFloat` and the skip test `amount <= 0` by `pyLeZero` (so a
NaN amount is NOT skipped: NaN compares False). -/
def loadRowsFP : List CSVRow → Nat → Except LoadError (List RefundRequestFP)
  | [], _ => .ok []
  | r :: rs, n =>
    match r.payment_id with
    | none => .error (.rowError n noneStripMsg)
    | some pidRaw =>
      match r.amount with
      | none => .error (.rowError n noneStripMsg)
      | some amtRaw =>
        let payment_id := pyStrip pidRaw
        let amount_str := pyStrip amtRaw
        if payment_id = "" then
          loadRowsFP rs (n + 1)
        else
          match parsePyFloat amount_str with
          | none => loadRowsFP rs (n + 1)
          | some amount =>
            if pyLeZero amount then
              loadRowsFP rs (n + 1)
            else
              match loadRowsFP rs (n + 1) with
              | .error e => .error e
              | .ok rest => .ok (⟨payment_id, amount, n⟩ :: rest)

/-- `read_csv_file` at float fidelity: same header check, rows loaded by
`loadRowsFP`. -/
def read_csv_fileFP (inp : Option CSVFile) : Except LoadError (List RefundRequestFP) :=
  match inp with
  | none => .error .fileNotFound
  | some f =>
    if "payment_id" ∈ f.header ∧ "amount" ∈ f.header then
      loadRowsFP f.rows 2
    else
      .error (.missingColumns f.header (missingColumnsOf f.header))

/-- Amended row acceptance rule: stripped `payment_id` non-empty, the
stripped amount accepted by `float(s)`, and the stored double NOT `<= 0`
under Python comparison (for finite values that is value > 0, but NaN
and +inf also pass). -/
def specAcceptsFP (pidRaw amtRaw : String) : Option (String × PyFloat) :=
  let pid := pyStrip pidRaw
  if pid = "" then none
  else
    match parsePyFloat (pyStrip amtRaw) with
    | none => none
    | some v => if pyLeZero v = false then some (pid, v) else none

/-- Loader output described by the amended rule: keep exactly the rows
`specAcceptsFP` admits, in order, numbering rows from `n`. -/
def loadSpecFP : List CSVRow → Nat → List RefundRequestFP
  | [], _ => []
  | r :: rs, n =>
    match r.payment_id, r.amount with
    | some p, some a =>
      match specAcceptsFP p a with
      | some (pid, v) => ⟨pid, v, n⟩ :: loadSpecFP rs (n + 1)
      | none => loadSpecFP rs (n + 1)
    | _, _ => loadSpecFP rs (n + 1)

/-! Concrete fixtures used by the witness theorems. -/

/-- A collaborator that always succeeds. -/
def apiAllOk : Nat → Except PyExn ApiResult :=
  fun _ => .ok (.success (some "r1") (some "COMPLETED") (some "USD") (some "t1"))

/-- A collaborator that raises `APIException` on the first row and
succeeds afterwards. -/
def apiFailFirst : Nat → Except PyExn ApiResult :=
  fun n => if n = 0 then .error (.api "boom") else
    .ok (.success (some "r2") (some "COMPLETED") (some "USD") (some "t2"))

/-- Two-row file with integer amounts. -/
def fileTwoRows : CSVFile :=
  ⟨["payment_id", "amount"], [⟨some "A", some "10"⟩, ⟨some "B", some "7"⟩]⟩

/-- The request the loader produces for the first row of `fileTwoRows`. -/
def reqA : RefundRequest := ⟨"A", ((10 : Nat) : ℚ), 2⟩

/-- The request the loader produces for the second row of `fileTwoRows`. -/
def reqB : RefundRequest := ⟨"B", ((7 : Nat) : ℚ), 3⟩

/-- A header-only file (no data rows). -/
def fileEmptyRows : CSVFile := ⟨["payment_id", "amount"], []⟩

/-- A file whose header lacks the `amount` column. -/
def fileNoAmountCol : CSVFile := ⟨["payment_id"], [⟨some "X", some "1"⟩]⟩

/-- Mixed-validity file exercising the per-row validation rules,
including the float-only forms `nan`, exponent, underscore and `-inf`. -/
def fileMixedFP : CSVFile :=
  ⟨["payment_id", "amount"],
   [⟨some "PAY_1", some "10.50"⟩, ⟨some "PAY_2", some "0"⟩,
    ⟨some "PAY_3", some "-5"⟩, ⟨some "PAY_4", some "abc"⟩,
    ⟨some " ", some "5.00"⟩, ⟨some "PAY_5", some "7.25"⟩,
    ⟨some "PAY_6", some "nan"⟩, ⟨some "PAY_7", some "1e2"⟩,
    ⟨some "PAY_8", some "1_0"⟩, ⟨some "PAY_9", some "-inf"⟩]⟩

/-- A file with a short third row (missing `amount` cell), followed by a
valid row. -/
def fileShortRow : CSVFile :=
  ⟨["payment_id", "amount"],
   [⟨some "PAY_1", some "10"⟩, ⟨some "PAY_2", none⟩, ⟨some "PAY_3", some "7"⟩]⟩

/-! Helper lemmas about the runner. -/

/-- `create_refund` succeeds exactly when the collaborator returned a
result taking the `is_success` branch; exceptions and failure results all
yield `False`. -/
theorem create_refund_success_eq (p : String) (a : ℚ) (t : Nat)
    (api : Except PyExn ApiResult) :
    (create_refund p a t api).1.1 = callIsSuccess api := by
  cases api with
  | ok r => cases r <;> rfl
  | error e => cases e <;> rfl

/-- The request body sent by `create_refund` does not depend on the
collaborator's behavior: token, truncated minor units, `USD`, the
payment id and the fixed reason. -/
theorem create_refund_call_eq (p : String) (a : ℚ) (t : Nat)
    (api : Except PyExn ApiResult) :
    (create_refund p a t api).2 =
      ⟨t, truncToInt (a * 100), "USD", p, refundReason⟩ := by
  cases api with
  | ok r => cases r <;> rfl
  | error e => cases e <;> rfl

/-- Each processed row increments exactly one of the two counters: over
any request list the counters sum to the list length. -/
theorem runRefunds_counts_sum (rows : List RefundRequest)
    (api : Nat → Except PyExn ApiResult) (t : Nat) :
    (runRefunds rows api t).1.1 + (runRefunds rows api t).1.2 = rows.length := by
  induction rows generalizing t with
  | nil => rfl
  | cons r rs ih =>
    have h := ih (t + 1)
    simp only [runRefunds, List.length_cons]
    split <;> omega

/-- One collaborator invocation is recorded per processed row. -/
theorem runRefunds_calls_length (rows : List RefundRequest)
    (api : Nat → Except PyExn ApiResult) (t : Nat) :
    (runRefunds rows api t).2.length = rows.length := by
  induction rows generalizing t with
  | nil => rfl
  | cons r rs ih => simp [runRefunds, ih]

/-- The `k`-th collaborator invocation of a run started at token counter
`t` carries idempotency token `t + k`. -/
theorem runRefunds_calls_key (rows : List RefundRequest)
    (api : Nat → Except PyExn ApiResult) (t k : Nat)
    (hk : k < (runRefunds rows api t).2.length) :
    ((runRefunds rows api t).2.get ⟨k, hk⟩).idempotency_key = t + k := by
  induction rows generalizing t k with
  | nil => simp [runRefunds] at hk
  | cons r rs ih =>
    cases k with
    | zero =>
      show ((create_refund r.payment_id r.amount t (api t)).2).idempotency_key = t + 0
      rw [create_refund_call_eq]
      rfl
    | succ k =>
      have hk' : k < (runRefunds rs api (t + 1)).2.length := by
        simpa [runRefunds] using hk
      show (((runRefunds rs api (t + 1)).2).get ⟨k, hk'⟩).idempotency_key = t + (k + 1)
      rw [ih (t + 1) k hk']
      omega

/-- Splitting a run: counters add up and the invocation lists concatenate,
with the token counter advanced by the length of the first part. -/
theorem runRefunds_append (xs ys : List RefundRequest)
    (api : Nat → Except PyExn ApiResult) (t : Nat) :
    runRefunds (xs ++ ys) api t =
      (((runRefunds xs api t).1.1 + (runRefunds ys api (t + xs.length)).1.1,
        (runRefunds xs api t).1.2 + (runRefunds ys api (t + xs.length)).1.2),
       (runRefunds xs api t).2 ++ (runRefunds ys api (t + xs.length)).2) := by
  induction xs generalizing t with
  | nil => simp [runRefunds]
  | cons x xs ih =>
    have h := ih (t + 1)
    simp only [List.cons_append, List.length_cons, runRefunds, List.append_eq]
    rw [show t + (xs.length + 1) = t + 1 + xs.length from by omega]
    rw [h]
    split <;> simp [Nat.add_right_comm]

/-- A short row (either consumed cell absent) aborts the whole load with
the `AttributeError` at that row's number, no matter what follows it. -/
theorem loadRows_short_aborts (rows1 : List CSVRow) (r : CSVRow)
    (rows2 : List CSVRow) (n : Nat)
    (hwf : ∀ x ∈ rows1, x.payment_id ≠ none ∧ x.amount ≠ none)
    (hr : r.payment_id = none ∨ r.amount = none) :
    loadRows (rows1 ++ r :: rows2) n =
      .error (.rowError (n + rows1.length) noneStripMsg) := by
  induction rows1 generalizing n with
  | nil =>
    cases hp : r.payment_id with
    | none => simp [loadRows, hp]
    | some p =>
      rcases hr with h | h
      · rw [hp] at h
        cases h
      · simp [loadRows, hp, h]
  | cons x xs ih =>
    obtain ⟨hp, ha⟩ := hwf x (List.mem_cons_self x xs)
    obtain ⟨p, hp'⟩ := Option.ne_none_iff_exists'.mp hp
    obtain ⟨a, ha'⟩ := Option.ne_none_iff_exists'.mp ha
    have ih' := ih (n + 1) (fun x' hx' => hwf x' (List.mem_cons_of_mem _ hx'))
    simp only [List.cons_append, loadRows, hp', ha', List.length_cons]
    rw [show n + (xs.length + 1) = n + 1 + xs.length from by omega]
    by_cases hpe : pyStrip p = ""
    · simp [hpe, ih']
    · cases hq : parseDecimal (pyStrip a) with
      | none => simp [hpe, hq, ih']
      | some q =>
        by_cases hq0 : q ≤ 0
        · simp [hpe, hq, hq0, ih']
        · simp [hpe, hq, hq0, ih']

/-! Claim theorems. -/

/-- C10: `create_refund` is total over every collaborator behavior —
its success flag is exactly the classification of the behavior (so every
raised exception is converted, not propagated), and every failure result
dict carries the request's `payment_id` and `amount`. -/
theorem claim_C10_create_refund_total (p : String) (a : ℚ) (t : Nat)
    (api : Except PyExn ApiResult) :
    (create_refund p a t api).1.1 = callIsSuccess api ∧
    ((create_refund p a t api).1.1 = false →
      ((create_refund p a t api).1.2).paymentId = p ∧
      ((create_refund p a t api).1.2).amountVal = a) := by
  refine ⟨create_refund_success_eq p a t api, fun _ => ?_⟩
  cases api with
  | ok r =>
    cases r <;>
      simp [create_refund, RefundResult.paymentId, RefundResult.amountVal]
  | error e =>
    cases e <;>
      simp [create_refund, RefundResult.paymentId, RefundResult.amountVal]

/-- C10 witness: a raised non-API exception yields a failure dict
carrying the request's payment id and amount. -/
theorem claim_C10_create_refund_total_witness :
    ((create_refund "P1" 5 0 (.error (.other "crash"))).1.2).paymentId = "P1" ∧
    ((create_refund "P1" 5 0 (.error (.other "crash"))).1.2).amountVal = 5 :=
  (claim_C10_create_refund_total "P1" 5 0 (.error (.other "crash"))).2 rfl

/-- The `k`-th collaborator invocation of a run carries idempotency token
`k`. -/
theorem process_calls_key_eq (inp : Option CSVFile)
    (api : Nat → Except PyExn ApiResult) (k : Nat)
    (hk : k < (process_refunds inp api).2.length) :
    ((process_refunds inp api).2.get ⟨k, hk⟩).idempotency_key = k := by
  rcases hsplit : read_csv_file inp with e | rows
  · exfalso
    have h0 : (process_refunds inp api).2 = [] := by
      simp [process_refunds, hsplit]
    rw [h0] at hk
    simp at hk
  · by_cases he : rows.isEmpty
    · exfalso
      have h0 : (process_refunds inp api).2 = [] := by
        simp [process_refunds, hsplit, he]
      rw [h0] at hk
      simp at hk
    · have hc : (process_refunds inp api).2 = (runRefunds rows api 0).2 := by
        simp [process_refunds, hsplit, he]
      have hk' : k < (runRefunds rows api 0).2.length := by
        rw [← hc]
        exact hk
      have hkey := runRefunds_calls_key rows api 0 k hk'
      rw [List.get_of_eq hc]
      exact hkey.trans (by omega)

/-- C8: idempotency tokens of two distinct collaborator invocations in
the same run are distinct — `uuid.uuid4()` is modelled as a fresh-token
counter, so no two rows ever share a token. -/
theorem claim_C8_tokens_distinct (inp : Option CSVFile)
    (api : Nat → Except PyExn ApiResult) (i j : Nat)
    (hi : i < (process_refunds inp api).2.length)
    (hj : j < (process_refunds inp api).2.length) (hij : i ≠ j) :
    ((process_refunds inp api).2.get ⟨i, hi⟩).idempotency_key ≠
      ((process_refunds inp api).2.get ⟨j, hj⟩).idempotency_key := by
  intro heq
  rw [process_calls_key_eq inp api i hi, process_calls_key_eq inp api j hj] at heq
  exact hij heq

/-- C8 witness: in the two-row run the two calls carry distinct tokens. -/
theorem claim_C8_tokens_distinct_witness :
    ((process_refunds (some fileTwoRows) apiAllOk).2.get ⟨0, by decide⟩).idempotency_key ≠
      ((process_refunds (some fileTwoRows) apiAllOk).2.get ⟨1, by decide⟩).idempotency_key :=
  claim_C8_tokens_distinct (some fileTwoRows) apiAllOk 0 1 (by decide) (by decide)
    (by decide)

/-- C2: the returned summary satisfies `total = successful + failed`
(counters being naturals, both are nonnegative); the invariant holds
after every prefix of the row sequence, and each processed row increments
exactly one of the two counters. -/
theorem claim_C2_summary_invariant :
    (∀ (inp : Option CSVFile) (api : Nat → Except PyExn ApiResult)
        (s : RunSummary) (rate : Option ℚ),
        (process_refunds inp api).1 = .ok (s, rate) →
        s.total = s.successful + s.failed) ∧
    (∀ (rows : List RefundRequest) (api : Nat → Except PyExn ApiResult)
        (t k : Nat),
        (runRefunds (rows.take k) api t).1.1 +
            (runRefunds (rows.take k) api t).1.2 = (rows.take k).length) ∧
    (∀ (rows : List RefundRequest) (api : Nat → Except PyExn ApiResult)
        (t k : Nat), k < rows.length →
        (runRefunds (rows.take (k + 1)) api t).1 =
            ((runRefunds (rows.take k) api t).1.1 + 1,
             (runRefunds (rows.take k) api t).1.2) ∨
        (runRefunds (rows.take (k + 1)) api t).1 =
            ((runRefunds (rows.take k) api t).1.1,
             (runRefunds (rows.take k) api t).1.2 + 1)) := by
  refine ⟨?_, ?_, ?_⟩
  · intro inp api s rate h
    unfold process_refunds at h
    cases hread : read_csv_file inp with
    | error e =>
      simp only [hread] at h
      simp at h
    | ok rows =>
      simp only [hread] at h
      by_cases he : rows.isEmpty
      · rw [if_pos he] at h
        simp only [Except.ok.injEq, Prod.mk.injEq] at h
        rw [← h.1]
        rfl
      · rw [if_neg he] at h
        simp only [Except.ok.injEq, Prod.mk.injEq] at h
        rw [← h.1]
        exact (runRefunds_counts_sum rows api 0).symm
  · intro rows api t k
    exact runRefunds_counts_sum (rows.take k) api t
  · intro rows api t k hk
    have htake : rows.take (k + 1) = rows.take k ++ [rows[k]] := by
      rw [List.take_succ]
      rw [List.getElem?_eq_getElem hk]
      rfl
    have hlen : (rows.take k).length = k := by
      rw [List.length_take]
      omega
    rw [htake, runRefunds_append, hlen]
    by_cases hb : (create_refund rows[k].payment_id rows[k].amount (t + k)
        (api (t + k))).1.1 = true
    · left
      simp [runRefunds, hb]
    · right
      rw [Bool.not_eq_true] at hb
      simp [runRefunds, hb]

/-- C2 witness: the invariant at the completed empty run, and the
exactly-one-increment step at a concrete one-row run. -/
theorem claim_C2_summary_invariant_witness :
    (⟨0, 0, 0⟩ : RunSummary).total =
      (⟨0, 0, 0⟩ : RunSummary).successful + (⟨0, 0, 0⟩ : RunSummary).failed ∧
    ((runRefunds ([reqA].take 1) apiAllOk 0).1 =
        ((runRefunds ([reqA].take 0) apiAllOk 0).1.1 + 1,
         (runRefunds ([reqA].take 0) apiAllOk 0).1.2) ∨
     (runRefunds ([reqA].take 1) apiAllOk 0).1 =
        ((runRefunds ([reqA].take 0) apiAllOk 0).1.1,
         (runRefunds ([reqA].take 0) apiAllOk 0).1.2 + 1)) :=
  ⟨claim_C2_summary_invariant.1 (some fileEmptyRows) apiAllOk ⟨0, 0, 0⟩ none rfl,
   claim_C2_summary_invariant.2.2 [reqA] apiAllOk 0 0 (by decide)⟩

/-- C6: a run that loads zero valid rows returns the all-zero summary
with no collaborator invocation and no computed success rate, and the
process exits 0; dually, whenever a success rate is computed the total is
nonzero, so the division `successful / total` is never evaluated at
`total = 0`. -/
theorem claim_C6_zero_rows_safe (inp : Option CSVFile)
    (api : Nat → Except PyExn ApiResult) :
    (read_csv_file inp = .ok [] →
      process_refunds inp api = (.ok (⟨0, 0, 0⟩, none), []) ∧
      main_exit false inp api = 0) ∧
    (∀ (s : RunSummary) (q : ℚ),
      (process_refunds inp api).1 = .ok (s, some q) → s.total ≠ 0) := by
  constructor
  · intro h
    have hp : process_refunds inp api = (.ok (⟨0, 0, 0⟩, none), []) := by
      simp [process_refunds, h]
    refine ⟨hp, ?_⟩
    simp [main_exit, hp]
  · intro s q h
    unfold process_refunds at h
    cases hread : read_csv_file inp with
    | error e =>
      simp only [hread] at h
      simp at h
    | ok rows =>
      simp only [hread] at h
      by_cases he : rows.isEmpty
      · rw [if_pos he] at h
        simp at h
      · rw [if_neg he] at h
        simp only [Except.ok.injEq, Prod.mk.injEq] at h
        rw [← h.1]
        simp only [ne_eq]
        intro hzero
        have : rows = [] := List.length_eq_zero.mp hzero
        rw [this] at he
        exact he rfl

/-- C6 witness: the empty-rows file returns the all-zero summary, makes
no call and exits 0; the two-row all-success run computes a rate and its
total is nonzero. -/
theorem claim_C6_zero_rows_safe_witness :
    process_refunds (some fileEmptyRows) apiAllOk = (.ok (⟨0, 0, 0⟩, none), []) ∧
    main_exit false (some fileEmptyRows) apiAllOk = 0 ∧
    (⟨2, 2, 0⟩ : RunSummary).total ≠ 0 := by
  have h1 := (claim_C6_zero_rows_safe (some fileEmptyRows) apiAllOk).1 rfl
  have h2 := (claim_C6_zero_rows_safe (some fileTwoRows) apiAllOk).2 ⟨2, 2, 0⟩
    (((2 : Nat) : ℚ) / ((2 : Nat) : ℚ) * 100) rfl
  exact ⟨h1.1, h1.2, h2⟩

/-- C5: the process exit code is 0 exactly when the run completed with
zero failed rows (including the zero-row case); it is 1 on any failed
row, on any load error (file not found, missing required columns), and
on user interruption. -/
theorem claim_C5_exit_codes :
    (∀ (inp : Option CSVFile) (api : Nat → Except PyExn ApiResult),
        main_exit true inp api = 1) ∧
    (∀ (inp : Option CSVFile) (api : Nat → Except PyExn ApiResult)
        (e : LoadError), (process_refunds inp api).1 = .error e →
        main_exit false inp api = 1) ∧
    (∀ (inp : Option CSVFile) (api : Nat → Except PyExn ApiResult)
        (s : RunSummary) (rate : Option ℚ),
        (process_refunds inp api).1 = .ok (s, rate) →
        (main_exit false inp api = 0 ↔ s.failed = 0)) ∧
    (∀ api : Nat → Except PyExn ApiResult, main_exit false none api = 1) ∧
    (∀ (h : List String) (rows : List CSVRow)
        (api : Nat → Except PyExn ApiResult),
        ("payment_id" ∉ h ∨ "amount" ∉ h) →
        main_exit false (some ⟨h, rows⟩) api = 1) := by
  refine ⟨fun inp api => rfl, ?_, ?_, fun api => rfl, ?_⟩
  · intro inp api e h
    simp [main_exit, h]
  · intro inp api s rate h
    simp only [main_exit, if_false, h]
    by_cases hf : s.failed = 0
    · simp [hf]
    · simp [hf, Nat.pos_of_ne_zero hf]
  · intro h rows api hcol
    have hn : ¬("payment_id" ∈ h ∧ "amount" ∈ h) := by tauto
    simp [main_exit, process_refunds, read_csv_file, hn]

/-- C5 witness: interruption exits 1; a missing file exits 1; a header
without `amount` exits 1; an all-success (here: zero-row) run exits 0. -/
theorem claim_C5_exit_codes_witness :
    main_exit true (some fileTwoRows) apiAllOk = 1 ∧
    main_exit false none apiAllOk = 1 ∧
    main_exit false (some fileNoAmountCol) apiAllOk = 1 ∧
    main_exit false (some fileEmptyRows) apiAllOk = 0 :=
  ⟨claim_C5_exit_codes.1 (some fileTwoRows) apiAllOk,
   claim_C5_exit_codes.2.1 none apiAllOk .fileNotFound rfl,
   claim_C5_exit_codes.2.2.2.2 ["payment_id"] fileNoAmountCol.rows apiAllOk
     (by decide),
   (claim_C5_exit_codes.2.2.1 (some fileEmptyRows) apiAllOk ⟨0, 0, 0⟩ none
     rfl).mpr rfl⟩

/-- C4: a header lacking `payment_id` or `amount` (exact case) makes the
loader raise before looking at any row — the error carries the columns
found and the missing required columns — and the run makes zero
collaborator invocations, for every row list and every collaborator. -/
theorem claim_C4_missing_columns (h : List String) (rows : List CSVRow)
    (api : Nat → Except PyExn ApiResult)
    (hcol : "payment_id" ∉ h ∨ "amount" ∉ h) :
    read_csv_file (some ⟨h, rows⟩) =
      .error (.missingColumns h (missingColumnsOf h)) ∧
    process_refunds (some ⟨h, rows⟩) api =
      (.error (.missingColumns h (missingColumnsOf h)), []) := by
  have hn : ¬("payment_id" ∈ h ∧ "amount" ∈ h) := by tauto
  have h1 : read_csv_file (some ⟨h, rows⟩) =
      .error (.missingColumns h (missingColumnsOf h)) := by
    simp [read_csv_file, hn]
  exact ⟨h1, by simp [process_refunds, h1]⟩

/-- C4 witness: the file without an `amount` column is rejected with the
found/missing column report and zero collaborator invocations. -/
theorem claim_C4_missing_columns_witness :
    read_csv_file (some fileNoAmountCol) =
      .error (.missingColumns ["payment_id"] ["amount"]) ∧
    process_refunds (some fileNoAmountCol) apiAllOk =
      (.error (.missingColumns ["payment_id"] ["amount"]), []) := by
  have h := claim_C4_missing_columns ["payment_id"] fileNoAmountCol.rows apiAllOk
    (by decide)
  rw [show missingColumnsOf ["payment_id"] = ["amount"] from rfl] at h
  exact h

/-- C9: a data row with a missing cell (fewer fields than the header)
makes `read_csv_file` raise: the whole load aborts with an error at that
row's number, regardless of the rows that follow — they are never
processed, and no row list is returned. -/
theorem claim_C9_short_row_aborts (h : List String) (rows1 : List CSVRow)
    (r : CSVRow) (rows2 : List CSVRow)
    (hp : "payment_id" ∈ h) (ha : "amount" ∈ h)
    (hwf : ∀ x ∈ rows1, x.payment_id ≠ none ∧ x.amount ≠ none)
    (hr : r.payment_id = none ∨ r.amount = none) :
    read_csv_file (some ⟨h, rows1 ++ r :: rows2⟩) =
      .error (.rowError (2 + rows1.length) noneStripMsg) := by
  have hcols : "payment_id" ∈ h ∧ "amount" ∈ h := ⟨hp, ha⟩
  simp only [read_csv_file, if_pos hcols]
  exact loadRows_short_aborts rows1 r rows2 2 hwf hr

/-- C9 witness: the short third row of `fileShortRow` aborts the load at
row number 3 even though a valid row follows. -/
theorem claim_C9_short_row_aborts_witness :
    read_csv_file (some fileShortRow) = .error (.rowError 3 noneStripMsg) :=
  claim_C9_short_row_aborts ["payment_id", "amount"]
    [⟨some "PAY_1", some "10"⟩] ⟨some "PAY_2", none⟩ [⟨some "PAY_3", some "7"⟩]
    (by decide) (by decide) (by decide) (by decide)

/-- C1: with rows `[A (fails), B (succeeds)]` the run reports total 2,
successful 1, failed 1 — the failing row increments `failed` exactly once
and the call for `B` is still made (it is the second recorded
invocation); raised exceptions are converted into failure outcomes with
the distinct categories `'API Exception'` and `'Unexpected Error'`
instead of propagating. -/
theorem claim_C1_failure_isolation (inp : Option CSVFile)
    (api : Nat → Except PyExn ApiResult) (A B : RefundRequest)
    (hread : read_csv_file inp = .ok [A, B])
    (hfail : callIsSuccess (api 0) = false)
    (hsucc : callIsSuccess (api 1) = true) :
    process_refunds inp api =
      (.ok (⟨2, 1, 1⟩, some 50),
       [⟨0, truncToInt (A.amount * 100), "USD", A.payment_id, refundReason⟩,
        ⟨1, truncToInt (B.amount * 100), "USD", B.payment_id, refundReason⟩]) ∧
    (∀ (p : String) (a : ℚ) (t : Nat) (m : String),
        (create_refund p a t (.error (.api m))).1 =
          (false, .exn "API Exception" m p a)) ∧
    (∀ (p : String) (a : ℚ) (t : Nat) (m : String),
        (create_refund p a t (.error (.other m))).1 =
          (false, .exn "Unexpected Error" m p a)) ∧
    ("API Exception" : String) ≠ "Unexpected Error" := by
  refine ⟨?_, fun p a t m => rfl, fun p a t m => rfl, by decide⟩
  have hb0 : (create_refund A.payment_id A.amount 0 (api 0)).1.1 = false := by
    rw [create_refund_success_eq]
    exact hfail
  have hb1 : (create_refund B.payment_id B.amount 1 (api 1)).1.1 = true := by
    rw [create_refund_success_eq]
    exact hsucc
  simp only [process_refunds, hread]
  rw [if_neg (by simp : ¬([A, B] : List RefundRequest).isEmpty = true)]
  simp only [runRefunds, hb0, hb1, Bool.false_eq_true, if_true, if_false,
    create_refund_call_eq, List.length_cons, List.length_nil]
  norm_num

/-- C1 witness: on the concrete two-row file, the first call raising
`APIException` and the second succeeding yields total 2, successful 1,
failed 1, with the second row's call recorded. -/
theorem claim_C1_failure_isolation_witness :
    process_refunds (some fileTwoRows) apiFailFirst =
      (.ok (⟨2, 1, 1⟩, some 50),
       [⟨0, 1000, "USD", "A", refundReason⟩,
        ⟨1, 700, "USD", "B", refundReason⟩]) := by
  have h := (claim_C1_failure_isolation (some fileTwoRows) apiFailFirst reqA reqB
    rfl rfl rfl).1
  rw [show truncToInt (reqA.amount * 100) = 1000 from by
    norm_num [truncToInt, reqA]] at h
  rw [show truncToInt (reqB.amount * 100) = 700 from by
    norm_num [truncToInt, reqB]] at h
  exact h

/-! Lemmas and claim theorems for the bit-faithful float layer. -/

/-- The overflow literal is `2 ^ 1024`. -/
theorem ovfBound_eq : ovfBound = 2 ^ 1024 := by
  norm_num [ovfBound]

/-- Under a valid header and rows whose two cells are all present, the
bit-faithful loader emits exactly the rows the amended validation rule
accepts. -/
theorem loadRowsFP_eq_loadSpecFP (rows : List CSVRow) (n : Nat)
    (hwf : ∀ r ∈ rows, r.payment_id ≠ none ∧ r.amount ≠ none) :
    loadRowsFP rows n = .ok (loadSpecFP rows n) := by
  induction rows generalizing n with
  | nil => rfl
  | cons r rs ih =>
    obtain ⟨hp, ha⟩ := hwf r (List.mem_cons_self r rs)
    obtain ⟨p, hp'⟩ := Option.ne_none_iff_exists'.mp hp
    obtain ⟨a, ha'⟩ := Option.ne_none_iff_exists'.mp ha
    have ih' := ih (n + 1) (fun r' hr' => hwf r' (List.mem_cons_of_mem _ hr'))
    simp only [loadRowsFP, loadSpecFP, specAcceptsFP, hp', ha']
    by_cases hpe : pyStrip p = ""
    · simp [hpe, ih']
    · cases hq : parsePyFloat (pyStrip a) with
      | none => simp [hpe, hq, ih']
      | some v =>
        cases hb : pyLeZero v with
        | true => simp [hpe, hq, hb, ih']
        | false => simp [hpe, hq, hb, ih']

/-- Every finite amount the bit-faithful per-row loop emits is strictly
positive (NaN and +inf pass the filter but are not `fin` values). -/
theorem loadRowsFP_amount_pos (rows : List CSVRow) (n : Nat)
    (l : List RefundRequestFP) (h : loadRowsFP rows n = .ok l) :
    ∀ req ∈ l, ∀ q : ℚ, req.amount = .fin q → 0 < q := by
  induction rows generalizing n l with
  | nil =>
    simp only [loadRowsFP, Except.ok.injEq] at h
    subst h
    simp
  | cons r rs ih =>
    cases hp : r.payment_id with
    | none => simp [loadRowsFP, hp] at h
    | some p =>
      cases ha : r.amount with
      | none => simp [loadRowsFP, hp, ha] at h
      | some a =>
        simp only [loadRowsFP, hp, ha] at h
        by_cases hpe : pyStrip p = ""
        · rw [if_pos hpe] at h
          exact ih (n + 1) l h
        · rw [if_neg hpe] at h
          cases hq : parsePyFloat (pyStrip a) with
          | none =>
            simp only [hq] at h
            exact ih (n + 1) l h
          | some v =>
            simp only [hq] at h
            by_cases hb : pyLeZero v = true
            · rw [if_pos hb] at h
              exact ih (n + 1) l h
            · rw [if_neg hb] at h
              rw [Bool.not_eq_true] at hb
              cases hrec : loadRowsFP rs (n + 1) with
              | error e =>
                rw [hrec] at h
                cases h
              | ok rest =>
                rw [hrec] at h
                simp only [Except.ok.injEq] at h
                subst h
                intro req hreq q hq'
                rcases List.mem_cons.mp hreq with hh | ht
                · subst hh
                  have hv : v = .fin q := hq'
                  subst hv
                  simp only [pyLeZero, decide_eq_false_iff_not] at hb
                  exact not_le.mp hb
                · exact ih (n + 1) rest hrec req ht q hq'

/-- C3 counterexample: the program's loader (modelled bit-faithfully by
`read_csv_fileFP`) INCLUDES a row whose amount field is `"nan"` —
`float('nan')` succeeds and `nan <= 0` is False at line 138 — although
NaN is not strictly greater than zero (`nan > 0` is also False), and
although `"nan"` is not a decimal-number literal (the idealized
`parseDecimal` rejects it).  This falsifies both directions of the claim
as stated: the inclusion rule is not "parses as a decimal number with
value > 0", and not every emitted request has amount > 0. -/
theorem claim_C3_loader_counterexample :
    read_csv_fileFP (some ⟨["payment_id", "amount"], [⟨some "P", some "nan"⟩]⟩) =
      .ok [⟨"P", .nan, 2⟩] ∧
    pyGtZero .nan = false ∧
    parseDecimal "nan" = none :=
  ⟨rfl, rfl, rfl⟩

/-- C3 amended: on a structurally valid file whose rows all have both
cells, the loader includes a row exactly when, after stripping, the
`payment_id` is non-empty, the amount is accepted by Python `float()`
(decimal literals with optional exponent and underscores, or the special
values `nan`/`inf`), and the stored double is NOT `<= 0` under Python
comparison; for finite stored values that condition is value > 0 — so
`"0"` and `"-5"` are excluded, `"abc"` is unparseable, and `"10.50"` is
included as exactly 21/2 — but NaN (all comparisons False) and +inf also
pass; hence every emitted FINITE amount is strictly positive. -/
theorem claim_C3_loader_validation_amended :
    (∀ (h : List String) (rows : List CSVRow),
        "payment_id" ∈ h → "amount" ∈ h →
        (∀ r ∈ rows, r.payment_id ≠ none ∧ r.amount ≠ none) →
        read_csv_fileFP (some ⟨h, rows⟩) = .ok (loadSpecFP rows 2)) ∧
    (∀ (inp : Option CSVFile) (l : List RefundRequestFP),
        read_csv_fileFP inp = .ok l →
        ∀ req ∈ l, ∀ q : ℚ, req.amount = .fin q → 0 < q) ∧
    parsePyFloat "10.50" = some (.fin (mkRat 21 2)) ∧
    (parsePyFloat "0" = some (.fin 0) ∧ pyLeZero (.fin 0) = true) ∧
    (parsePyFloat "-5" = some (.fin (-5)) ∧ pyLeZero (.fin (-5)) = true) ∧
    parsePyFloat "abc" = none ∧
    (parsePyFloat "nan" = some .nan ∧ pyLeZero .nan = false) := by
  refine ⟨?_, ?_, rfl, ⟨rfl, rfl⟩, ⟨rfl, rfl⟩, rfl, ⟨rfl, rfl⟩⟩
  · intro h rows hp ha hwf
    have hcols : "payment_id" ∈ h ∧ "amount" ∈ h := ⟨hp, ha⟩
    simp only [read_csv_fileFP, if_pos hcols]
    exact loadRowsFP_eq_loadSpecFP rows 2 hwf
  · intro inp l hload
    cases inp with
    | none => simp [read_csv_fileFP] at hload
    | some f =>
      simp only [read_csv_fileFP] at hload
      by_cases hcols : "payment_id" ∈ f.header ∧ "amount" ∈ f.header
      · rw [if_pos hcols] at hload
        exact loadRowsFP_amount_pos f.rows 2 l hload
      · rw [if_neg hcols] at hload
        cases hload

/-- C3 amended witness: on the mixed file the bit-faithful loader output
matches the amended rule, keeping `PAY_1` (`"10.50"`), `PAY_5`
(`"7.25"`), `PAY_6` (`"nan"`), `PAY_7` (`"1e2"`), `PAY_8` (`"1_0"`) and
dropping the `"0"`, `"-5"`, `"abc"`, blank-id and `"-inf"` rows. -/
theorem claim_C3_loader_validation_amended_witness :
    read_csv_fileFP (some fileMixedFP) = .ok (loadSpecFP fileMixedFP.rows 2) ∧
    (loadSpecFP fileMixedFP.rows 2).map RefundRequestFP.payment_id =
      ["PAY_1", "PAY_5", "PAY_6", "PAY_7", "PAY_8"] ∧
    (loadSpecFP fileMixedFP.rows 2).map RefundRequestFP.row_number =
      [2, 7, 8, 9, 10] :=
  ⟨claim_C3_loader_validation_amended.1 ["payment_id", "amount"] fileMixedFP.rows
    (by decide) (by decide) (by decide), rfl, rfl⟩

/-- C7 counterexample: `"0.57"` is a validated amount (parses, positive),
stored as the double `5134103575202365 / 2^53`; the program's
`int(amount * 100)` — truncation of the correctly rounded double product
— sends 56 minor units, while the claimed conversion, exact
multiplication by 100 then truncation, yields 57. -/
theorem claim_C7_minor_units_counterexample :
    parsePyFloat "0.57" = some (.fin (mkRat 5134103575202365 9007199254740992)) ∧
    pyLeZero (.fin (mkRat 5134103575202365 9007199254740992)) = false ∧
    floatCents (.fin (mkRat 5134103575202365 9007199254740992)) = some 56 ∧
    truncToInt ((mkRat 57 100) * 100) = 57 ∧
    (56 : Int) ≠ 57 := by
  refine ⟨rfl, rfl, rfl, ?_, by decide⟩
  rw [show ((mkRat 57 100 : ℚ) * 100) = 57 from by
    rw [Rat.mkRat_eq_div]
    norm_num]
  norm_num [truncToInt]

/-- C7 amended: the call's `amount_minor_units` is `int(amount * 100)`
computed in binary64 — the truncation toward zero of the correctly
rounded double product of the stored amount and 100 — with currency
fixed to `USD`; the truncation never rounds up relative to that double
product, but the product's rounding can make the result differ from the
exact `a * 100` truncation (`0.57` gives 56, not 57); `10.005` still
yields 1000 minor units. -/
theorem claim_C7_minor_units_amended :
    (∀ (p : String) (a : ℚ) (t : Nat) (api : Except PyExn ApiResult),
        (create_refund p a t api).2.currency = "USD") ∧
    (∀ q r : ℚ, pyMul100 (.fin q) = .fin r →
        floatCents (.fin q) = some (truncToInt r) ∧
        (0 ≤ r → ((truncToInt r : ℚ) ≤ r))) ∧
    (parsePyFloat "10.005" = some (.fin (mkRat 5632314283980227 562949953421312)) ∧
      floatCents (.fin (mkRat 5632314283980227 562949953421312)) = some 1000) := by
  refine ⟨?_, ?_, ⟨rfl, rfl⟩⟩
  · intro p a t api
    rw [create_refund_call_eq]
  · intro q r hqr
    constructor
    · show pyInt (pyMul100 (.fin q)) = some (truncToInt r)
      rw [hqr]
      rfl
    · intro hr
      simp only [truncToInt, if_pos hr]
      exact Int.floor_le r

/-- C7 amended witness: for the exactly representable amount 10.5 the
double product is exactly 1050 and the program sends 1050 minor units,
not more than the product. -/
theorem claim_C7_minor_units_amended_witness :
    floatCents (.fin (mkRat 21 2)) = some 1050 ∧
    ((truncToInt (1050 : ℚ) : ℚ) ≤ (1050 : ℚ)) := by
  have h := claim_C7_minor_units_amended.2.1 (mkRat 21 2) 1050 rfl
  refine ⟨?_, h.2 (by norm_num)⟩
  rw [h.1]
  rw [show truncToInt (1050 : ℚ) = 1050 from by norm_num [truncToInt]]
